import Mathlib

/-!
A shallow embedding of `src/mod_whisper.c` (FreeSWITCH ASR module driving a
websocket transcription backend), with theorems settling the frozen claims
about its session state machine.

Modelling conventions:
* The per-session `whisper_t` context becomes the `Whisper` structure; the
  `ASRFLAG_*` bitset becomes the `Flags` structure of booleans (the bits are
  independent, set/cleared/tested individually by the C code).
* `switch_status_t` values used by the module become `SwitchStatus`.
* Wall-clock time (`switch_micro_time_now`) is passed in explicitly as an
  integer number of microseconds; C's truncating integer division by 1000 is
  `Int.tdiv`.
* The websocket is external: its behaviour at each receive point is an input
  (`RecvOutcome`), write failures are input booleans, and the frames the module
  writes are collected in an output list (`SentFrame`).  The voice-activity
  detector is external too: its verdict for the fed frame is an input
  (`VadState`) and the module's `switch_vad_reset` calls are counted.
* The audio buffer is tracked by its byte count (the code only writes `len`
  bytes and reads blocks of `AUDIO_BLOCK_SIZE`).
* `whisper_close` releases resources; the model counts destroy calls on the
  websocket, the buffer and the detector, so that a double release is visible.
-/

namespace ModWhisper

/-- Status codes (`switch_status_t`) returned by the module's entry points. -/
inductive SwitchStatus where
  | success
  | statusFalse
  | statusBreak
  | moreData
  | memerr
  | generr
deriving DecidableEq, Repr

/-- Verdict of `switch_vad_process` for one audio frame. -/
inductive VadState where
  | silence
  | talking
  | startTalking
  | stopTalking
deriving DecidableEq, Repr

/-- The `ASRFLAG_*` bitset of `whisper_t.flags`, one boolean per bit. -/
structure Flags where
  ready : Bool
  inputTimers : Bool
  startOfSpeech : Bool
  returnedStartOfSpeech : Bool
  noinputTimeout : Bool
  result : Bool
  returnedResult : Bool
  timeout : Bool
deriving DecidableEq, Repr

/-- The all-clear bitset (`context->flags = 0`). -/
def Flags.clearAll : Flags :=
  ⟨false, false, false, false, false, false, false, false⟩

/-- The per-session context `whisper_t`.  `partialCount` models the C field
`partial` (remaining partial deliveries); `vadResets` counts
`switch_vad_reset` calls; `bufferBytes` is `switch_buffer_inuse` of the audio
buffer. -/
structure Whisper where
  flags : Flags
  result_text : String
  result_confidence : Rat
  thresh : Nat
  silence_ms : Nat
  voice_ms : Nat
  no_input_timeout : Int
  speech_timeout : Int
  start_input_timers : Bool
  no_input_time : Int
  speech_time : Int
  grammar : String
  channel_uuid : String
  vadResets : Nat
  bufferBytes : Nat
  partialCount : Int
deriving DecidableEq, Repr

/-- The ASR handle bits the module reads: `SWITCH_ASR_FLAG_CLOSED` and
`SWITCH_ASR_FLAG_AUTO_RESUME`. -/
structure AsrHandle where
  closed : Bool
  autoResume : Bool
deriving DecidableEq, Repr

/-- `whisper_reset` (src/mod_whisper.c lines 91-104): reset the detector,
zero the flags, install the placeholder result text "agent" with confidence
87.3, set READY, re-arm the no-input timestamp, and set INPUT_TIMERS iff
`start_input_timers` is configured. -/
def whisper_reset (ctx : Whisper) (now : Int) : Whisper :=
  { ctx with
      vadResets := ctx.vadResets + 1
      flags := { Flags.clearAll with
                   ready := true
                   inputTimers := ctx.start_input_timers }
      result_text := "agent"
      result_confidence := (873 : Rat) / 10
      no_input_time := now }

/-- The context as `whisper_open` builds it (lines 106-202): allocation is
zero-filled, the configuration defaults of lines 144-149 are installed, and
`whisper_reset` runs last. -/
def whisper_open (now : Int) : Whisper :=
  whisper_reset
    { flags := Flags.clearAll
      result_text := ""
      result_confidence := 0
      thresh := 400
      silence_ms := 700
      voice_ms := 60
      no_input_timeout := 5000
      speech_timeout := 10000
      start_input_timers := true
      no_input_time := 0
      speech_time := 0
      grammar := ""
      channel_uuid := ""
      vadResets := 0
      bufferBytes := 0
      partialCount := 0 } now

/-- Destroy counters for the session's released resources: how many times
`kws_destroy`, `switch_buffer_destroy` and `switch_vad_destroy` have run. -/
structure CloseResources where
  wsDestroys : Nat
  bufferDestroys : Nat
  vadDestroys : Nat
deriving DecidableEq, Repr

/-- `whisper_close` (lines 223-253), translated in source order: it first
closes and destroys the websocket, sets `SWITCH_ASR_FLAG_CLOSED`, destroys the
audio buffer — and only then tests `SWITCH_ASR_FLAG_CLOSED`, which it has just
set, so the "Double ASR close!" branch (return `SWITCH_STATUS_FALSE`) is taken
on every call and the detector-destroy / success tail is dead code. -/
def whisper_close (ah : AsrHandle) (r : CloseResources) :
    AsrHandle × CloseResources × SwitchStatus :=
  let r1 := { r with wsDestroys := r.wsDestroys + 1 }
  let ah1 := { ah with closed := true }
  let r2 := { r1 with bufferDestroys := r1.bufferDestroys + 1 }
  if ah1.closed then
    (ah1, r2, SwitchStatus.statusFalse)
  else
    let r3 := { r2 with vadDestroys := r2.vadDestroys + 1 }
    ({ ah1 with closed := true }, r3, SwitchStatus.success)

/-- A frame the module writes to the websocket: one audio block
(`WSOC_BINARY`, one `AUDIO_BLOCK_SIZE` read from the buffer), a text frame, or
a pong echoing a ping's payload. -/
inductive SentFrame where
  | binaryBlock (size : Nat)
  | textFrame (payload : String)
  | pongFrame (payload : String)
deriving DecidableEq, Repr

/-- Opcode of a frame received from the websocket. -/
inductive WsOpcode where
  | text
  | binary
  | ping
  | pong
deriving DecidableEq, Repr

/-- A frame received from the websocket. -/
structure WsFrame where
  oc : WsOpcode
  payload : String
deriving DecidableEq, Repr

/-- What the websocket does at one poll/read point: the poll times out, the
poll errors, `kws_read_frame` fails (`rlen < 0`), or a frame arrives. -/
inductive RecvOutcome where
  | pollTimeout
  | pollError
  | readError
  | frame (f : WsFrame)
deriving DecidableEq, Repr

/-- Fixed audio block size (`AUDIO_BLOCK_SIZE`, 3200 bytes). -/
def AUDIO_BLOCK_SIZE : Nat := 3200

/-- The end-of-utterance marker `whisper_send_final_bit` sends: the
`ks_json` serialization of the object with field "eof" = "true". -/
def eofPayload : String := "\x7b\"eof\":\"true\"\x7d"

/-- Environment of one `whisper_send_final_bit` call: whether the
`kws_write_frame` of the eof marker succeeds, and what the bounded (60 s)
poll/read for the backend's final frame yields. -/
structure FinalBitEnv where
  sendOk : Bool
  recv : RecvOutcome
deriving DecidableEq, Repr

/-- `whisper_send_final_bit` (lines 255-302): send the eof text frame, poll up
to 60 s for the backend's answer, read one frame and store its payload as the
result text.  Any failure returns `SWITCH_STATUS_BREAK`. -/
def whisper_send_final_bit (ctx : Whisper) (env : FinalBitEnv) :
    Whisper × SwitchStatus × List SentFrame :=
  if env.sendOk = false then (ctx, SwitchStatus.statusBreak, [])
  else
    let sent := [SentFrame.textFrame eofPayload]
    match env.recv with
    | RecvOutcome.pollTimeout => (ctx, SwitchStatus.statusBreak, sent)
    | RecvOutcome.pollError => (ctx, SwitchStatus.statusBreak, sent)
    | RecvOutcome.readError => (ctx, SwitchStatus.statusBreak, sent)
    | RecvOutcome.frame f =>
        ({ ctx with result_text := f.payload }, SwitchStatus.success, sent)

/-- Environment of one `whisper_feed` call: the wall clock, the detector's
verdict for this frame, whether the binary block write succeeds, the outcome
of the short (5 ms) poll/read done while TALKING, and the environment of a
`whisper_send_final_bit` call should one happen. -/
structure FeedEnv where
  now : Int
  vadVerdict : VadState
  blockSendOk : Bool
  talkRecv : RecvOutcome
  finalBit : FinalBitEnv
deriving DecidableEq, Repr

/-- The poll/read the TALKING branch of `whisper_feed` performs (lines
362-384): a poll that is not readable returns success at once; a read error
breaks; a ping is answered with a pong carrying the same payload; any other
frame's payload becomes the updated result text. -/
def feedTalkRecv (ctx : Whisper) (env : FeedEnv) (sent : List SentFrame) :
    Whisper × SwitchStatus × List SentFrame :=
  match env.talkRecv with
  | RecvOutcome.pollTimeout => (ctx, SwitchStatus.success, sent)
  | RecvOutcome.pollError => (ctx, SwitchStatus.success, sent)
  | RecvOutcome.readError => (ctx, SwitchStatus.statusBreak, sent)
  | RecvOutcome.frame f =>
      if f.oc = WsOpcode.ping then
        (ctx, SwitchStatus.success, sent ++ [SentFrame.pongFrame f.payload])
      else
        ({ ctx with result_text := f.payload }, SwitchStatus.success, sent)

/-- The READY portion of `whisper_feed` (lines 340-407): run the frame through
the detector and branch on its verdict.  TALKING appends to the buffer,
flushes one block when more than `AUDIO_BLOCK_SIZE` bytes are buffered, then
does the short poll/read; STOP_TALKING performs the end-of-speech handshake,
sets RESULT and clears READY; START_TALKING sets START_OF_SPEECH and records
the speech timestamp. -/
def whisper_feed_ready (ctx : Whisper) (len : Nat) (env : FeedEnv)
    (sent : List SentFrame) : Whisper × SwitchStatus × List SentFrame :=
  if ctx.flags.ready = false then (ctx, SwitchStatus.success, sent)
  else
    match env.vadVerdict with
    | VadState.talking =>
        let c1 := { ctx with bufferBytes := ctx.bufferBytes + len }
        if AUDIO_BLOCK_SIZE < c1.bufferBytes then
          if env.blockSendOk = false then (c1, SwitchStatus.statusBreak, sent)
          else
            let c2 := { c1 with bufferBytes := c1.bufferBytes - AUDIO_BLOCK_SIZE }
            feedTalkRecv c2 env (sent ++ [SentFrame.binaryBlock AUDIO_BLOCK_SIZE])
        else
          feedTalkRecv c1 env sent
    | VadState.stopTalking =>
        let fb := whisper_send_final_bit ctx env.finalBit
        if fb.2.1 ≠ SwitchStatus.success then (fb.1, SwitchStatus.statusBreak, sent ++ fb.2.2)
        else
          ({ fb.1 with
               flags := { fb.1.flags with result := true, ready := false }
               vadResets := fb.1.vadResets + 1 },
           SwitchStatus.success, sent ++ fb.2.2)
    | VadState.startTalking =>
        ({ ctx with
             flags := { ctx.flags with startOfSpeech := true }
             speech_time := env.now },
         SwitchStatus.success, sent)
    | VadState.silence => (ctx, SwitchStatus.success, sent)

/-- `whisper_feed` (lines 303-411): fail on a closed handle; auto-resume
(reset) when a result was returned and `SWITCH_ASR_FLAG_AUTO_RESUME` is set;
if `ASRFLAG_TIMEOUT` is pending perform the end-of-speech handshake, set
RESULT, reset the detector and clear TIMEOUT; then, when READY, process the
frame through the detector. -/
def whisper_feed (ah : AsrHandle) (ctx0 : Whisper) (len : Nat) (env : FeedEnv) :
    Whisper × SwitchStatus × List SentFrame :=
  if ah.closed then (ctx0, SwitchStatus.statusBreak, [])
  else
    let ctx1 :=
      if ctx0.flags.returnedResult && ah.autoResume then whisper_reset ctx0 env.now
      else ctx0
    if ctx1.flags.timeout then
      let fb := whisper_send_final_bit ctx1 env.finalBit
      if fb.2.1 ≠ SwitchStatus.success then (fb.1, SwitchStatus.statusBreak, fb.2.2)
      else
        let ctx2 :=
          { fb.1 with
              flags := { fb.1.flags with result := true, timeout := false }
              vadResets := fb.1.vadResets + 1 }
        whisper_feed_ready ctx2 len env fb.2.2
    else
      whisper_feed_ready ctx1 len env []

/-- Final return of `whisper_check_results` (line 474): ready iff RESULT or
NO_INPUT_TIMEOUT is set. -/
def checkFinalStatus (ctx : Whisper) : SwitchStatus :=
  if ctx.flags.result || ctx.flags.noinputTimeout then SwitchStatus.success
  else SwitchStatus.statusBreak

/-- `whisper_check_results` (lines 444-475): not ready once a result was
returned or the handle is closed; ready at once when START_OF_SPEECH is set
but not yet returned; otherwise, with neither RESULT nor NO_INPUT_TIMEOUT set,
evaluate the two timeout clocks — the no-input clock sets NO_INPUT_TIMEOUT,
the speech clock sets ASRFLAG_TIMEOUT and returns `SWITCH_STATUS_FALSE`
immediately (the inner else that would set NO_INPUT_TIMEOUT is dead, its guard
repeats START_OF_SPEECH which the branch condition already requires). -/
def whisper_check_results (ah : AsrHandle) (ctx : Whisper) (now : Int) :
    Whisper × SwitchStatus :=
  if ctx.flags.returnedResult || ah.closed then (ctx, SwitchStatus.statusBreak)
  else if ctx.flags.returnedStartOfSpeech = false ∧ ctx.flags.startOfSpeech then
    (ctx, SwitchStatus.success)
  else if ctx.flags.result = false ∧ ctx.flags.noinputTimeout = false then
    if ctx.flags.inputTimers ∧ ctx.flags.startOfSpeech = false ∧
        0 ≤ ctx.no_input_timeout ∧
        ctx.no_input_timeout ≤ Int.tdiv (now - ctx.no_input_time) 1000 then
      let c := { ctx with flags := { ctx.flags with noinputTimeout := true } }
      (c, checkFinalStatus c)
    else if ctx.flags.timeout = false ∧ ctx.flags.startOfSpeech ∧
        0 < ctx.speech_timeout ∧
        ctx.speech_timeout ≤ Int.tdiv (now - ctx.speech_time) 1000 then
      if ctx.flags.startOfSpeech then
        ({ ctx with flags := { ctx.flags with timeout := true } },
         SwitchStatus.statusFalse)
      else
        let c := { ctx with flags := { ctx.flags with noinputTimeout := true } }
        (c, checkFinalStatus c)
    else (ctx, checkFinalStatus ctx)
  else (ctx, checkFinalStatus ctx)

/-- The text payload `whisper_get_results` builds with `switch_mprintf`, by
field: grammar echoed, text, confidence, and the optional "error" field. -/
structure ResultPayload where
  grammar : String
  text : String
  confidence : Rat
  error : Option String
deriving DecidableEq, Repr

/-- `whisper_get_results` (lines 477-519): fail once a result was returned or
the handle is closed.  With RESULT set, deliver the pending text — the partial
counter is post-decremented and a positive value means "more data"; else with
NO_INPUT_TIMEOUT set deliver the structured no-input payload (empty text,
confidence 0, error "no_input"); else an unreturned START_OF_SPEECH is
acknowledged with `SWITCH_STATUS_BREAK`; else fail.  A success delivery sets
RETURNED_RESULT and clears READY. -/
def whisper_get_results (ah : AsrHandle) (ctx : Whisper) :
    Whisper × SwitchStatus × Option ResultPayload :=
  if ctx.flags.returnedResult || ah.closed then
    (ctx, SwitchStatus.statusFalse, none)
  else
    let step : Whisper × SwitchStatus × Option ResultPayload :=
      if ctx.flags.result then
        let is_partial : Bool := decide (0 < ctx.partialCount)
        let c := { ctx with partialCount := ctx.partialCount - 1 }
        let p : ResultPayload :=
          ⟨ctx.grammar, ctx.result_text, ctx.result_confidence, none⟩
        if is_partial then (c, SwitchStatus.moreData, some p)
        else (c, SwitchStatus.success, some p)
      else if ctx.flags.noinputTimeout then
        (ctx, SwitchStatus.success, some ⟨ctx.grammar, "", 0, some "no_input"⟩)
      else if ctx.flags.returnedStartOfSpeech = false ∧ ctx.flags.startOfSpeech then
        ({ ctx with flags := { ctx.flags with returnedStartOfSpeech := true } },
         SwitchStatus.statusBreak, none)
      else (ctx, SwitchStatus.statusFalse, none)
    if step.2.1 = SwitchStatus.success then
      ({ step.1 with
           flags := { step.1.flags with returnedResult := true, ready := false } },
       step.2.1, step.2.2)
    else step

/-- `whisper_start_input_timers` (lines 521-540): fail on a closed handle;
set INPUT_TIMERS and re-arm the no-input timestamp when the flag was clear,
otherwise only log; return success. -/
def whisper_start_input_timers (ah : AsrHandle) (ctx : Whisper) (now : Int) :
    Whisper × SwitchStatus :=
  if ah.closed then (ctx, SwitchStatus.statusFalse)
  else if ctx.flags.inputTimers = false then
    ({ ctx with
         flags := { ctx.flags with inputTimers := true }
         no_input_time := now },
     SwitchStatus.success)
  else (ctx, SwitchStatus.success)

/-- `whisper_pause` (lines 414-427): fail on a closed handle, otherwise zero
the whole flag bitset. -/
def whisper_pause (ah : AsrHandle) (ctx : Whisper) : Whisper × SwitchStatus :=
  if ah.closed then (ctx, SwitchStatus.statusFalse)
  else ({ ctx with flags := Flags.clearAll }, SwitchStatus.success)

/-- `whisper_resume` (lines 429-442): fail on a closed handle, otherwise run
`whisper_reset`. -/
def whisper_resume (ah : AsrHandle) (ctx : Whisper) (now : Int) :
    Whisper × SwitchStatus :=
  if ah.closed then (ctx, SwitchStatus.statusFalse)
  else (whisper_reset ctx now, SwitchStatus.success)

/-- Leading decimal digits of a character list, accumulated left to right
(stops at the first non-digit), as C's `atoi` core loop does. -/
def parseDigits : List Char → Nat → Nat
  | c :: cs, acc =>
      if c.isDigit then parseDigits cs (acc * 10 + (c.toNat - 48)) else acc
  | [], acc => acc

/-- C `atoi`: optional sign then leading digits. -/
def atoi (s : String) : Int :=
  match s.data with
  | '-' :: cs => -(parseDigits cs 0 : Int)
  | '+' :: cs => (parseDigits cs 0 : Int)
  | cs => (parseDigits cs 0 : Int)

/-- Value of a fraction-digit list read after the decimal point. -/
def fracVal : List Char → Rat
  | c :: cs => if c.isDigit then ((c.toNat - 48 : Nat) + fracVal cs) / 10 else 0
  | [] => 0

/-- Unsigned part of C `atof`: leading digits, then an optional point and
fraction digits. -/
def atofAux (cs : List Char) : Rat :=
  let intPart := cs.takeWhile (fun c => c.isDigit)
  let rest := cs.drop intPart.length
  let ip : Rat := (parseDigits intPart 0 : Nat)
  match rest with
  | '.' :: fs => ip + fracVal (fs.takeWhile (fun c => c.isDigit))
  | _ => ip

/-- C `atof` restricted to the plain decimal notation the module's parameters
use: optional sign, digits, optional fraction. -/
def atof (s : String) : Rat :=
  match s.data with
  | '-' :: cs => -(atofAux cs)
  | '+' :: cs => atofAux cs
  | cs => atofAux cs

/-- FreeSWITCH `zstr`: the string is missing or empty. -/
def zstr (s : String) : Bool := s.isEmpty

/-- ASCII lower-casing of one character, as C `tolower` in the default
locale. -/
def lowerChar (c : Char) : Char :=
  if 'A' ≤ c ∧ c ≤ 'Z' then Char.ofNat (c.toNat + 32) else c

/-- Case-insensitive equality, as `!strcasecmp(a, b)`. -/
def sameNoCase (a b : String) : Bool :=
  a.data.map lowerChar = b.data.map lowerChar

/-- FreeSWITCH `switch_is_number`: optional sign, then digits with at most one
decimal point and nothing else. -/
def switch_is_number (s : String) : Bool :=
  let cs :=
    match s.data with
    | '-' :: r => r
    | '+' :: r => r
    | r => r
  !cs.isEmpty && cs.count '.' ≤ 1 && cs.all (fun c => c.isDigit || c = '.')

/-- FreeSWITCH `switch_true`: one of the affirmative words (case-insensitive)
or a positive number. -/
def switch_true (s : String) : Bool :=
  sameNoCase s "yes" || sameNoCase s "on" || sameNoCase s "true" ||
    sameNoCase s "t" || sameNoCase s "enabled" || sameNoCase s "active" ||
    sameNoCase s "allow" || decide (0 < atoi s)

/-- `whisper_text_param` (lines 542-590): named-parameter updates.  The
detector's own mode/threshold state lives outside the model, so `vad-mode`
only touches it and the duration/threshold branches update the mirrored
context fields; `partial` arms the partial counter at 3. -/
def whisper_text_param (ctx : Whisper) (p v : String) : Whisper :=
  if zstr p || zstr v then ctx
  else
    let nval := atoi v
    let fval := atof v
    if sameNoCase p "no-input-timeout" && switch_is_number v then
      { ctx with no_input_timeout := nval }
    else if sameNoCase p "speech-timeout" && switch_is_number v then
      { ctx with speech_timeout := nval }
    else if sameNoCase p "start-input-timers" then
      let b := switch_true v
      { ctx with
          start_input_timers := b
          flags := { ctx.flags with inputTimers := b } }
    else if sameNoCase p "vad-mode" then ctx
    else if sameNoCase p "vad-voice-ms" && decide (0 < nval) then
      { ctx with voice_ms := nval.toNat }
    else if sameNoCase p "vad-silence-ms" && decide (0 < nval) then
      { ctx with silence_ms := nval.toNat }
    else if sameNoCase p "vad-thresh" && decide (0 < nval) then
      { ctx with thresh := nval.toNat }
    else if sameNoCase p "channel-uuid" then { ctx with channel_uuid := v }
    else if sameNoCase p "result" then { ctx with result_text := v }
    else if sameNoCase p "confidence" && decide (0 ≤ fval) then
      { ctx with result_confidence := fval }
    else if sameNoCase p "partial" && switch_true v then
      { ctx with partialCount := 3 }
    else ctx

/-! ## Shared helper lemmas -/

/-- The end-of-speech handshake only rewrites the result text: the flag bitset
survives `whisper_send_final_bit` unchanged. -/
theorem send_final_bit_flags (ctx : Whisper) (env : FinalBitEnv) :
    (whisper_send_final_bit ctx env).1.flags = ctx.flags := by
  unfold whisper_send_final_bit
  split
  · rfl
  · cases env.recv <;> rfl

/-- With a silence verdict (no edge) the READY portion of `whisper_feed`
returns the context untouched with success. -/
theorem feed_ready_silence (ctx : Whisper) (len : Nat) (env : FeedEnv)
    (sent : List SentFrame) (h : env.vadVerdict = VadState.silence) :
    whisper_feed_ready ctx len env sent = (ctx, SwitchStatus.success, sent) := by
  unfold whisper_feed_ready
  split
  · rfl
  · rw [h]

/-! ## C1 — double close -/

/-- Claim C1 (code bug): `whisper_close` sets `SWITCH_ASR_FLAG_CLOSED` before
testing it, so the double-close guard misfires on every call.  On a freshly
opened handle the first `close` already returns the failure status after
destroying the websocket and the audio buffer, and a second `close` destroys
both again (each destroy counter reaches 2) instead of being rejected without
touching released resources. -/
theorem whisper_close_double_close_unguarded :
    (whisper_close ⟨false, false⟩ ⟨0, 0, 0⟩).2.2 = SwitchStatus.statusFalse ∧
    (whisper_close ⟨false, false⟩ ⟨0, 0, 0⟩).2.1.wsDestroys = 1 ∧
    (whisper_close ⟨false, false⟩ ⟨0, 0, 0⟩).2.1.bufferDestroys = 1 ∧
    (whisper_close (whisper_close ⟨false, false⟩ ⟨0, 0, 0⟩).1
        (whisper_close ⟨false, false⟩ ⟨0, 0, 0⟩).2.1).2.2 =
      SwitchStatus.statusFalse ∧
    (whisper_close (whisper_close ⟨false, false⟩ ⟨0, 0, 0⟩).1
        (whisper_close ⟨false, false⟩ ⟨0, 0, 0⟩).2.1).2.1.wsDestroys = 2 ∧
    (whisper_close (whisper_close ⟨false, false⟩ ⟨0, 0, 0⟩).1
        (whisper_close ⟨false, false⟩ ⟨0, 0, 0⟩).2.1).2.1.bufferDestroys = 2 := by
  decide

/-! ## C3 — reset and the pending result text -/

/-- Claim C3 (code bug): `whisper_reset` does not clear the pending result
text — it installs the placeholder transcript "agent" (with confidence 87.3)
on every reset, while it does re-arm the no-input timestamp and reset the
voice-activity detector. -/
theorem whisper_reset_installs_placeholder_result :
    ∀ (ctx : Whisper) (now : Int),
      (whisper_reset ctx now).result_text = "agent" ∧
      (whisper_reset ctx now).result_text ≠ "" ∧
      (whisper_reset ctx now).result_confidence = (873 : Rat) / 10 ∧
      (whisper_reset ctx now).no_input_time = now ∧
      (whisper_reset ctx now).vadResets = ctx.vadResets + 1 := by
  intro ctx now
  exact ⟨rfl, fun h => absurd h (by decide : ¬("agent" : String) = ""), rfl, rfl, rfl⟩

/-! ## C8 — reset restores the initial-open flag state -/

/-- The flag bitset of a freshly opened session, as the spec states it:
READY set, INPUT_TIMERS set iff auto-start is configured, every other flag
clear. -/
def initialOpenFlags (autoStart : Bool) : Flags :=
  { ready := true
    inputTimers := autoStart
    startOfSpeech := false
    returnedStartOfSpeech := false
    noinputTimeout := false
    result := false
    returnedResult := false
    timeout := false }

/-- Claim C8: after `whisper_reset` the flag bitset equals the initial-open
state exactly — READY set, INPUT_TIMERS set iff `start_input_timers` is
configured, all of START_OF_SPEECH, RETURNED_START_OF_SPEECH, NO_INPUT
TIMEOUT, RESULT, RETURNED_RESULT and TIMEOUT clear — and `whisper_open`
(which configures auto-start on) produces exactly that state. -/
theorem reset_flags_equal_initial_open_state :
    ∀ (ctx : Whisper) (now now2 : Int),
      (whisper_reset ctx now).flags = initialOpenFlags ctx.start_input_timers ∧
      (whisper_open now2).flags = initialOpenFlags true := by
  intro ctx now now2
  exact ⟨rfl, rfl⟩

/-! ## C6 — the no-input timeout outcome -/

/-- Claim C6: on an open session with NO_INPUT_TIMEOUT set, no pending result
and the result not yet returned, `whisper_get_results` delivers the structured
no-input payload — grammar echoed, empty text, confidence 0, error field
"no_input" — with the success status, sets RETURNED_RESULT and clears
READY. -/
theorem no_input_timeout_outcome_payload (ah : AsrHandle) (ctx : Whisper)
    (hc : ah.closed = false) (hrr : ctx.flags.returnedResult = false)
    (hni : ctx.flags.noinputTimeout = true) (hr : ctx.flags.result = false) :
    whisper_get_results ah ctx =
      ({ ctx with
           flags := { ctx.flags with returnedResult := true, ready := false } },
       SwitchStatus.success,
       some ⟨ctx.grammar, "", 0, some "no_input"⟩) := by
  simp [whisper_get_results, hc, hrr, hni, hr]

/-- Concrete run of `no_input_timeout_outcome_payload`: a default open session
whose no-input clock has fired. -/
theorem no_input_timeout_outcome_payload_witness :
    whisper_get_results ⟨false, false⟩
        { whisper_open 0 with
            flags := { (whisper_open 0).flags with noinputTimeout := true } } =
      ({ { whisper_open 0 with
             flags := { (whisper_open 0).flags with noinputTimeout := true } } with
           flags := { { (whisper_open 0).flags with noinputTimeout := true } with
                        returnedResult := true, ready := false } },
       SwitchStatus.success,
       some ⟨(whisper_open 0).grammar, "", 0, some "no_input"⟩) :=
  no_input_timeout_outcome_payload ⟨false, false⟩
    { whisper_open 0 with
        flags := { (whisper_open 0).flags with noinputTimeout := true } }
    rfl rfl rfl rfl

/-! ## C10 — startInputTimers is idempotent -/

/-- Claim C10: on an open session `whisper_start_input_timers` returns success;
when INPUT_TIMERS is already set it leaves the whole context (flag and
no-input timestamp included) unchanged, when clear it sets the flag and
re-arms the timestamp; hence a second consecutive call leaves the state of the
first call unchanged. -/
theorem start_input_timers_idempotent (ah : AsrHandle) (ctx : Whisper)
    (t1 t2 : Int) (hc : ah.closed = false) :
    (whisper_start_input_timers ah ctx t1).2 = SwitchStatus.success ∧
    (ctx.flags.inputTimers = true → (whisper_start_input_timers ah ctx t1).1 = ctx) ∧
    (ctx.flags.inputTimers = false →
      (whisper_start_input_timers ah ctx t1).1.flags.inputTimers = true ∧
      (whisper_start_input_timers ah ctx t1).1.no_input_time = t1) ∧
    (whisper_start_input_timers ah
        (whisper_start_input_timers ah ctx t1).1 t2).1 =
      (whisper_start_input_timers ah ctx t1).1 := by
  cases h : ctx.flags.inputTimers <;>
    simp [whisper_start_input_timers, hc, h]

/-- Concrete run of `start_input_timers_idempotent`: a default open session
(auto-start on, so INPUT_TIMERS is already set). -/
theorem start_input_timers_idempotent_witness :
    (whisper_start_input_timers ⟨false, false⟩ (whisper_open 0) 1).2 =
        SwitchStatus.success ∧
    ((whisper_open 0).flags.inputTimers = true →
      (whisper_start_input_timers ⟨false, false⟩ (whisper_open 0) 1).1 =
        whisper_open 0) ∧
    ((whisper_open 0).flags.inputTimers = false →
      (whisper_start_input_timers ⟨false, false⟩ (whisper_open 0) 1).1.flags.inputTimers =
          true ∧
      (whisper_start_input_timers ⟨false, false⟩ (whisper_open 0) 1).1.no_input_time =
          1) ∧
    (whisper_start_input_timers ⟨false, false⟩
        (whisper_start_input_timers ⟨false, false⟩ (whisper_open 0) 1).1 2).1 =
      (whisper_start_input_timers ⟨false, false⟩ (whisper_open 0) 1).1 :=
  start_input_timers_idempotent ⟨false, false⟩ (whisper_open 0) 1 2 rfl

/-! ## C9 — ping answered with pong, flags untouched -/

/-- Claim C9: on an open session mid-utterance (READY set, no timeout
pending, no auto-resume rearm due) whose detector classifies the fed frame
TALKING, a ping frame from the backend is answered with a pong carrying the
identical payload, `whisper_feed` returns success, and the flag bitset is
unchanged. -/
theorem ping_mid_utterance_pong_same_payload (ah : AsrHandle) (ctx : Whisper)
    (len : Nat) (env : FeedEnv) (p : String)
    (hc : ah.closed = false)
    (hnar : (ctx.flags.returnedResult && ah.autoResume) = false)
    (hto : ctx.flags.timeout = false)
    (hready : ctx.flags.ready = true)
    (hv : env.vadVerdict = VadState.talking)
    (hrecv : env.talkRecv = RecvOutcome.frame ⟨WsOpcode.ping, p⟩)
    (hbuf : ctx.bufferBytes + len ≤ AUDIO_BLOCK_SIZE) :
    (whisper_feed ah ctx len env).2.1 = SwitchStatus.success ∧
    (whisper_feed ah ctx len env).2.2 = [SentFrame.pongFrame p] ∧
    (whisper_feed ah ctx len env).1.flags = ctx.flags := by
  simp [whisper_feed, whisper_feed_ready, feedTalkRecv, hc, hnar, hto, hready,
    hv, hrecv, Nat.not_lt.mpr hbuf]

/-- Concrete run of `ping_mid_utterance_pong_same_payload`: default open
session, empty buffer, a 320-byte frame, backend ping with payload "ka". -/
theorem ping_mid_utterance_pong_same_payload_witness :
    (whisper_feed ⟨false, false⟩ (whisper_open 0) 320
        ⟨0, VadState.talking, true, RecvOutcome.frame ⟨WsOpcode.ping, "ka"⟩,
         ⟨true, RecvOutcome.pollTimeout⟩⟩).2.1 = SwitchStatus.success ∧
    (whisper_feed ⟨false, false⟩ (whisper_open 0) 320
        ⟨0, VadState.talking, true, RecvOutcome.frame ⟨WsOpcode.ping, "ka"⟩,
         ⟨true, RecvOutcome.pollTimeout⟩⟩).2.2 = [SentFrame.pongFrame "ka"] ∧
    (whisper_feed ⟨false, false⟩ (whisper_open 0) 320
        ⟨0, VadState.talking, true, RecvOutcome.frame ⟨WsOpcode.ping, "ka"⟩,
         ⟨true, RecvOutcome.pollTimeout⟩⟩).1.flags = (whisper_open 0).flags :=
  ping_mid_utterance_pong_same_payload ⟨false, false⟩ (whisper_open 0) 320
    ⟨0, VadState.talking, true, RecvOutcome.frame ⟨WsOpcode.ping, "ka"⟩,
     ⟨true, RecvOutcome.pollTimeout⟩⟩ "ka" rfl rfl rfl rfl rfl rfl (by decide)

/-! ## C7 — disabled no-input timer never fires -/

/-- Repeated `whisper_check_results` polls at the given instants. -/
def runChecks (ah : AsrHandle) (ctx : Whisper) : List Int → Whisper
  | [] => ctx
  | t :: ts => runChecks ah (whisper_check_results ah ctx t).1 ts

/-- With the no-input timeout negative and speech never detected, one
`whisper_check_results` poll leaves the context untouched: the no-input branch
requires a non-negative timeout and the speech branch requires
START_OF_SPEECH. -/
theorem check_results_disabled_no_input_step (ah : AsrHandle) (ctx : Whisper)
    (now : Int) (hni : ctx.no_input_timeout < 0)
    (hsos : ctx.flags.startOfSpeech = false) :
    (whisper_check_results ah ctx now).1 = ctx := by
  unfold whisper_check_results
  split
  · rfl
  · split
    · rfl
    · split
      · split
        · next hcond => exact absurd hcond.2.2.1 (by omega)
        · split
          · next hcond => rw [hsos] at hcond; exact absurd hcond.2.1 (by simp)
          · rfl
      · rfl

/-- Claim C7: with the no-input timeout configured negative (disabled) and
speech never detected (START_OF_SPEECH clear), no sequence of
`whisper_check_results` polls, at any instants, sets NO_INPUT_TIMEOUT: the
session state is exactly preserved and the NO_INPUT_TIMEOUT flag stays clear
throughout. -/
theorem disabled_no_input_timer_never_fires (ah : AsrHandle) (ctx : Whisper)
    (ts : List Int) (hni : ctx.no_input_timeout < 0)
    (hsos : ctx.flags.startOfSpeech = false)
    (hflag : ctx.flags.noinputTimeout = false) :
    runChecks ah ctx ts = ctx ∧
    (runChecks ah ctx ts).flags.noinputTimeout = false := by
  have h : runChecks ah ctx ts = ctx := by
    induction ts with
    | nil => rfl
    | cons t ts ih =>
        show runChecks ah (whisper_check_results ah ctx t).1 ts = ctx
        rw [check_results_disabled_no_input_step ah ctx t hni hsos]
        exact ih
  exact ⟨h, by rw [h]; exact hflag⟩

/-- Concrete run of `disabled_no_input_timer_never_fires`: the no-input
timeout is disabled through the module's own parameter update and three polls
spanning 100 s leave the session untouched. -/
theorem disabled_no_input_timer_never_fires_witness :
    runChecks ⟨false, false⟩
        (whisper_text_param (whisper_open 0) "no-input-timeout" "-1")
        [0, 10000000, 100000000] =
      whisper_text_param (whisper_open 0) "no-input-timeout" "-1" ∧
    (runChecks ⟨false, false⟩
        (whisper_text_param (whisper_open 0) "no-input-timeout" "-1")
        [0, 10000000, 100000000]).flags.noinputTimeout = false :=
  disabled_no_input_timer_never_fires ⟨false, false⟩
    (whisper_text_param (whisper_open 0) "no-input-timeout" "-1")
    [0, 10000000, 100000000] (by decide) (by decide) (by decide)

/-! ## C5 — partial deliveries count down before the final -/

/-- Iterated `whisper_get_results`: the context after n fetches. -/
def getIter (ah : AsrHandle) (ctx : Whisper) : Nat → Whisper
  | 0 => ctx
  | n + 1 => (whisper_get_results ah (getIter ah ctx n)).1

/-- One fetch while the partial counter is positive: "more data" status, the
counter decremented, nothing else (flags included) changed, RETURNED_RESULT
not set. -/
theorem get_results_more_step (ah : AsrHandle) (ctx : Whisper)
    (hc : ah.closed = false) (hr : ctx.flags.result = true)
    (hrr : ctx.flags.returnedResult = false) (hp : 0 < ctx.partialCount) :
    whisper_get_results ah ctx =
      ({ ctx with partialCount := ctx.partialCount - 1 },
       SwitchStatus.moreData,
       some ⟨ctx.grammar, ctx.result_text, ctx.result_confidence, none⟩) := by
  simp [whisper_get_results, hc, hr, hrr, hp]

/-- One fetch once the partial counter has run out: success status, the
pending text delivered, RETURNED_RESULT set and READY cleared. -/
theorem get_results_final_step (ah : AsrHandle) (ctx : Whisper)
    (hc : ah.closed = false) (hr : ctx.flags.result = true)
    (hrr : ctx.flags.returnedResult = false) (hp : ctx.partialCount ≤ 0) :
    whisper_get_results ah ctx =
      ({ ctx with
           partialCount := ctx.partialCount - 1
           flags := { ctx.flags with returnedResult := true, ready := false } },
       SwitchStatus.success,
       some ⟨ctx.grammar, ctx.result_text, ctx.result_confidence, none⟩) := by
  simp [whisper_get_results, hc, hr, hrr, Int.not_lt.mpr hp]

/-- After n ≤ N fetches from a pending result with partial counter N, only the
counter has changed: it reads N - n. -/
theorem getIter_partial_phase (ah : AsrHandle) (ctx : Whisper)
    (hc : ah.closed = false) (hr : ctx.flags.result = true)
    (hrr : ctx.flags.returnedResult = false) (N : Nat)
    (hp : ctx.partialCount = (N : Int)) :
    ∀ n : Nat, n ≤ N →
      getIter ah ctx n = { ctx with partialCount := (N : Int) - (n : Int) } := by
  intro n
  induction n with
  | zero =>
      intro _
      have h0 : (N : Int) - ((0 : Nat) : Int) = ctx.partialCount := by omega
      rw [h0]
      rfl
  | succ k ih =>
      intro hk
      have hk' : k ≤ N := Nat.le_of_succ_le hk
      have hlt : (0 : Int) < (N : Int) - (k : Int) := by omega
      show (whisper_get_results ah (getIter ah ctx k)).1 = _
      rw [ih hk']
      rw [get_results_more_step ah
        { ctx with partialCount := (N : Int) - (k : Int) } hc hr hrr hlt]
      have harith : (N : Int) - (k : Int) - 1 = (N : Int) - ((k + 1 : Nat) : Int) := by
        push_cast
        ring
      simp [harith]

/-- Claim C5: with a result pending, the result not yet returned and the
partial counter at N, the first N `whisper_get_results` calls each return the
"more data" status with the counter decreasing by one per call and
RETURNED_RESULT still clear, and the (N+1)-th call returns the success status,
sets RETURNED_RESULT and clears READY.  (`whisper_text_param` with
`partial=true` arms the counter at the default 3, as the witness shows.) -/
theorem partial_results_countdown_then_final (ah : AsrHandle) (ctx : Whisper)
    (N : Nat) (hc : ah.closed = false) (hr : ctx.flags.result = true)
    (hrr : ctx.flags.returnedResult = false)
    (hp : ctx.partialCount = (N : Int)) :
    (∀ i : Nat, i < N →
      (whisper_get_results ah (getIter ah ctx i)).2.1 = SwitchStatus.moreData ∧
      (getIter ah ctx (i + 1)).partialCount = (N : Int) - ((i + 1 : Nat) : Int) ∧
      (getIter ah ctx (i + 1)).flags.returnedResult = false) ∧
    (whisper_get_results ah (getIter ah ctx N)).2.1 = SwitchStatus.success ∧
    (getIter ah ctx (N + 1)).flags.returnedResult = true ∧
    (getIter ah ctx (N + 1)).flags.ready = false := by
  have phase := getIter_partial_phase ah ctx hc hr hrr N hp
  have hsN := phase N le_rfl
  have hstepN :=
    get_results_final_step ah (getIter ah ctx N) hc
      (by rw [hsN]; exact hr) (by rw [hsN]; exact hrr)
      (by rw [hsN]; show (N : Int) - (N : Int) ≤ 0; omega)
  refine ⟨?_, ?_, ?_, ?_⟩
  · intro i hi
    have hsi := phase i (Nat.le_of_lt hi)
    have hpos : (0 : Int) < (N : Int) - (i : Int) := by omega
    have hstep :=
      get_results_more_step ah (getIter ah ctx i) hc
        (by rw [hsi]; exact hr) (by rw [hsi]; exact hrr) (by rw [hsi]; exact hpos)
    refine ⟨by rw [hstep], ?_, ?_⟩
    · rw [phase (i + 1) hi]
    · rw [phase (i + 1) hi]
      exact hrr
  · rw [hstepN]
  · show (whisper_get_results ah (getIter ah ctx N)).1.flags.returnedResult = true
    rw [hstepN]
  · show (whisper_get_results ah (getIter ah ctx N)).1.flags.ready = false
    rw [hstepN]

/-- Concrete run of `partial_results_countdown_then_final`: a session whose
counter was armed through `partial=true` (so N = 3) with a result pending. -/
theorem partial_results_countdown_then_final_witness :
    (∀ i : Nat, i < 3 →
      (whisper_get_results ⟨false, false⟩
          (getIter ⟨false, false⟩
            { whisper_text_param (whisper_open 0) "partial" "true" with
                flags := { (whisper_text_param (whisper_open 0) "partial"
                    "true").flags with result := true } } i)).2.1 =
        SwitchStatus.moreData ∧
      (getIter ⟨false, false⟩
          { whisper_text_param (whisper_open 0) "partial" "true" with
              flags := { (whisper_text_param (whisper_open 0) "partial"
                  "true").flags with result := true } } (i + 1)).partialCount =
        (3 : Int) - ((i + 1 : Nat) : Int) ∧
      (getIter ⟨false, false⟩
          { whisper_text_param (whisper_open 0) "partial" "true" with
              flags := { (whisper_text_param (whisper_open 0) "partial"
                  "true").flags with result := true } }
          (i + 1)).flags.returnedResult = false) ∧
    (whisper_get_results ⟨false, false⟩
        (getIter ⟨false, false⟩
          { whisper_text_param (whisper_open 0) "partial" "true" with
              flags := { (whisper_text_param (whisper_open 0) "partial"
                  "true").flags with result := true } } 3)).2.1 =
      SwitchStatus.success ∧
    (getIter ⟨false, false⟩
        { whisper_text_param (whisper_open 0) "partial" "true" with
            flags := { (whisper_text_param (whisper_open 0) "partial"
                "true").flags with result := true } }
        (3 + 1)).flags.returnedResult = true ∧
    (getIter ⟨false, false⟩
        { whisper_text_param (whisper_open 0) "partial" "true" with
            flags := { (whisper_text_param (whisper_open 0) "partial"
                "true").flags with result := true } }
        (3 + 1)).flags.ready = false :=
  partial_results_countdown_then_final ⟨false, false⟩
    { whisper_text_param (whisper_open 0) "partial" "true" with
        flags := { (whisper_text_param (whisper_open 0) "partial"
            "true").flags with result := true } }
    3 rfl (by decide) (by decide) (by decide)

/-! ## C4 — RETURNED_RESULT is monotone and blocks delivery -/

/-- The session operations of one utterance (reset-free: `whisper_resume`,
`whisper_pause` and the auto-resume rearm are the reset events the claim
excludes). -/
inductive SessionOp where
  | feedOp (len : Nat) (env : FeedEnv)
  | checkOp (now : Int)
  | getOp
  | timersOp (now : Int)
deriving DecidableEq, Repr

/-- The context after one session operation. -/
def applyOp (ah : AsrHandle) (ctx : Whisper) : SessionOp → Whisper
  | SessionOp.feedOp len env => (whisper_feed ah ctx len env).1
  | SessionOp.checkOp now => (whisper_check_results ah ctx now).1
  | SessionOp.getOp => (whisper_get_results ah ctx).1
  | SessionOp.timersOp now => (whisper_start_input_timers ah ctx now).1

/-- The context after a sequence of session operations. -/
def runOps (ah : AsrHandle) (ctx : Whisper) : List SessionOp → Whisper
  | [] => ctx
  | op :: ops => runOps ah (applyOp ah ctx op) ops

/-- The TALKING poll/read leaves the flag bitset unchanged. -/
theorem feedTalkRecv_flags (ctx : Whisper) (env : FeedEnv)
    (sent : List SentFrame) : (feedTalkRecv ctx env sent).1.flags = ctx.flags := by
  unfold feedTalkRecv
  split <;> first | rfl | (split <;> rfl)

/-- The READY portion of `whisper_feed` never touches RETURNED_RESULT. -/
theorem feed_ready_returnedResult (ctx : Whisper) (len : Nat) (env : FeedEnv)
    (sent : List SentFrame) :
    (whisper_feed_ready ctx len env sent).1.flags.returnedResult =
      ctx.flags.returnedResult := by
  unfold whisper_feed_ready
  split
  · rfl
  · split
    · dsimp only
      split
      · split
        · rfl
        · rw [feedTalkRecv_flags]
      · rw [feedTalkRecv_flags]
    · dsimp only
      split
      · rw [send_final_bit_flags]
      · dsimp only
        rw [send_final_bit_flags]
    · rfl
    · rfl

/-- With auto-resume off, `whisper_feed` preserves a set RETURNED_RESULT. -/
theorem feed_preserves_returnedResult (ah : AsrHandle) (ctx : Whisper)
    (len : Nat) (env : FeedEnv) (har : ah.autoResume = false)
    (h : ctx.flags.returnedResult = true) :
    (whisper_feed ah ctx len env).1.flags.returnedResult = true := by
  unfold whisper_feed
  split
  · exact h
  · rw [har]
    simp only [Bool.and_false, Bool.false_eq_true, if_false]
    split
    · try dsimp only
      split
      · rw [send_final_bit_flags]
        exact h
      · rw [feed_ready_returnedResult]
        try dsimp only
        rw [send_final_bit_flags]
        exact h
    · rw [feed_ready_returnedResult]
      exact h

/-- Once RETURNED_RESULT is set, `whisper_check_results` reports not-ready and
changes nothing. -/
theorem check_results_after_returned (ah : AsrHandle) (ctx : Whisper)
    (now : Int) (h : ctx.flags.returnedResult = true) :
    whisper_check_results ah ctx now = (ctx, SwitchStatus.statusBreak) := by
  simp [whisper_check_results, h]

/-- Once RETURNED_RESULT is set, `whisper_get_results` fails and changes
nothing. -/
theorem get_results_after_returned (ah : AsrHandle) (ctx : Whisper)
    (h : ctx.flags.returnedResult = true) :
    whisper_get_results ah ctx = (ctx, SwitchStatus.statusFalse, none) := by
  simp [whisper_get_results, h]

/-- `whisper_start_input_timers` never touches RETURNED_RESULT. -/
theorem start_input_timers_returnedResult (ah : AsrHandle) (ctx : Whisper)
    (now : Int) :
    (whisper_start_input_timers ah ctx now).1.flags.returnedResult =
      ctx.flags.returnedResult := by
  unfold whisper_start_input_timers
  split
  · rfl
  · split <;> rfl

/-- RETURNED_RESULT, once set, survives any reset-free operation sequence. -/
theorem runOps_returnedResult (ah : AsrHandle) (har : ah.autoResume = false) :
    ∀ (ops : List SessionOp) (ctx : Whisper),
      ctx.flags.returnedResult = true →
      (runOps ah ctx ops).flags.returnedResult = true := by
  intro ops
  induction ops with
  | nil => intro ctx h; exact h
  | cons op ops ih =>
      intro ctx h
      refine ih _ ?_
      cases op with
      | feedOp len env => exact feed_preserves_returnedResult ah ctx len env har h
      | checkOp now =>
          show (whisper_check_results ah ctx now).1.flags.returnedResult = true
          rw [check_results_after_returned ah ctx now h]
          exact h
      | getOp =>
          show (whisper_get_results ah ctx).1.flags.returnedResult = true
          rw [get_results_after_returned ah ctx h]
          exact h
      | timersOp now =>
          show (whisper_start_input_timers ah ctx now).1.flags.returnedResult = true
          rw [start_input_timers_returnedResult]
          exact h

/-- Claim C4: once RETURNED_RESULT is set it stays set across every reset-free
sequence of feed / checkResultsReady / fetchResult / startInputTimers calls
(auto-resume off, so no reset can occur), and while it is set every
`whisper_get_results` call fails and every `whisper_check_results` call
reports not-ready — so a successful payload is never delivered twice. -/
theorem returned_result_monotone_and_blocks (ah : AsrHandle) (ctx : Whisper)
    (ops : List SessionOp) (now : Int) (har : ah.autoResume = false)
    (h : ctx.flags.returnedResult = true) :
    (runOps ah ctx ops).flags.returnedResult = true ∧
    (whisper_get_results ah (runOps ah ctx ops)).2.1 = SwitchStatus.statusFalse ∧
    (whisper_check_results ah (runOps ah ctx ops) now).2 = SwitchStatus.statusBreak := by
  have hm := runOps_returnedResult ah har ops ctx h
  refine ⟨hm, ?_, ?_⟩
  · rw [get_results_after_returned ah _ hm]
  · rw [check_results_after_returned ah _ now hm]

/-- Concrete run of `returned_result_monotone_and_blocks`: after a delivered
final result, a poll, a fetch, a timer start and a fed silence frame all leave
RETURNED_RESULT set, and fetch/poll keep failing. -/
theorem returned_result_monotone_and_blocks_witness :
    (runOps ⟨false, false⟩
        { whisper_open 0 with
            flags := { (whisper_open 0).flags with returnedResult := true } }
        [SessionOp.checkOp 5, SessionOp.getOp, SessionOp.timersOp 7,
         SessionOp.feedOp 320
           ⟨0, VadState.silence, true, RecvOutcome.pollTimeout,
            ⟨true, RecvOutcome.pollTimeout⟩⟩]).flags.returnedResult = true ∧
    (whisper_get_results ⟨false, false⟩
        (runOps ⟨false, false⟩
          { whisper_open 0 with
              flags := { (whisper_open 0).flags with returnedResult := true } }
          [SessionOp.checkOp 5, SessionOp.getOp, SessionOp.timersOp 7,
           SessionOp.feedOp 320
             ⟨0, VadState.silence, true, RecvOutcome.pollTimeout,
              ⟨true, RecvOutcome.pollTimeout⟩⟩])).2.1 = SwitchStatus.statusFalse ∧
    (whisper_check_results ⟨false, false⟩
        (runOps ⟨false, false⟩
          { whisper_open 0 with
              flags := { (whisper_open 0).flags with returnedResult := true } }
          [SessionOp.checkOp 5, SessionOp.getOp, SessionOp.timersOp 7,
           SessionOp.feedOp 320
             ⟨0, VadState.silence, true, RecvOutcome.pollTimeout,
              ⟨true, RecvOutcome.pollTimeout⟩⟩]) 9).2 = SwitchStatus.statusBreak :=
  returned_result_monotone_and_blocks ⟨false, false⟩
    { whisper_open 0 with
        flags := { (whisper_open 0).flags with returnedResult := true } }
    [SessionOp.checkOp 5, SessionOp.getOp, SessionOp.timersOp 7,
     SessionOp.feedOp 320
       ⟨0, VadState.silence, true, RecvOutcome.pollTimeout,
        ⟨true, RecvOutcome.pollTimeout⟩⟩] 9 rfl rfl

/-! ## C2 — speech timeout resolved by the next feed, delivered by fetch -/

/-- Claim C2: when the speech clock has elapsed with START_OF_SPEECH set (and
already acknowledged) and no stop edge occurred, `whisper_check_results` sets
the pending-timeout flag (ASRFLAG_TIMEOUT) and returns the failure status;
the next `whisper_feed` call then performs the end-of-speech handshake —
sends exactly the eof text frame and reads the backend's one bounded-wait
response — sets RESULT, clears the timeout flag and stores the response as
the result text; and the following `whisper_get_results` call (partial
deliveries exhausted, the default) returns that text as a successful payload
and marks it returned. -/
theorem speech_timeout_feed_handshake_then_final (ah : AsrHandle)
    (ctx : Whisper) (now1 : Int) (len : Nat) (env : FeedEnv) (f : WsFrame)
    (hc : ah.closed = false)
    (hrr : ctx.flags.returnedResult = false)
    (hrsos : ctx.flags.returnedStartOfSpeech = true)
    (hsos : ctx.flags.startOfSpeech = true)
    (hres : ctx.flags.result = false)
    (hni : ctx.flags.noinputTimeout = false)
    (hto : ctx.flags.timeout = false)
    (hst : 0 < ctx.speech_timeout)
    (helapsed : ctx.speech_timeout ≤ Int.tdiv (now1 - ctx.speech_time) 1000)
    (henv1 : env.finalBit = ⟨true, RecvOutcome.frame f⟩)
    (henv3 : env.vadVerdict = VadState.silence)
    (hpc : ctx.partialCount ≤ 0) :
    (whisper_check_results ah ctx now1).2 = SwitchStatus.statusFalse ∧
    (whisper_check_results ah ctx now1).1.flags.timeout = true ∧
    (whisper_feed ah (whisper_check_results ah ctx now1).1 len env).2.1 =
      SwitchStatus.success ∧
    (whisper_feed ah (whisper_check_results ah ctx now1).1 len env).2.2 =
      [SentFrame.textFrame eofPayload] ∧
    (whisper_feed ah (whisper_check_results ah ctx now1).1 len
        env).1.flags.result = true ∧
    (whisper_feed ah (whisper_check_results ah ctx now1).1 len
        env).1.flags.timeout = false ∧
    (whisper_feed ah (whisper_check_results ah ctx now1).1 len
        env).1.result_text = f.payload ∧
    (whisper_get_results ah
        (whisper_feed ah (whisper_check_results ah ctx now1).1 len env).1).2.1 =
      SwitchStatus.success ∧
    (whisper_get_results ah
        (whisper_feed ah (whisper_check_results ah ctx now1).1 len env).1).2.2 =
      some ⟨ctx.grammar, f.payload, ctx.result_confidence, none⟩ ∧
    (whisper_get_results ah
        (whisper_feed ah (whisper_check_results ah ctx now1).1 len
          env).1).1.flags.returnedResult = true := by
  have hcheck : whisper_check_results ah ctx now1 =
      ({ ctx with flags := { ctx.flags with timeout := true } },
       SwitchStatus.statusFalse) := by
    simp [whisper_check_results, hc, hrr, hrsos, hsos, hres, hni, hto,
      hst, helapsed]
  have hfeed : whisper_feed ah
      { ctx with flags := { ctx.flags with timeout := true } } len env =
      ({ ctx with
           result_text := f.payload
           flags := { ctx.flags with result := true, timeout := false }
           vadResets := ctx.vadResets + 1 },
       SwitchStatus.success, [SentFrame.textFrame eofPayload]) := by
    simp [whisper_feed, hc, hrr, henv1, whisper_send_final_bit,
      feed_ready_silence, henv3]
  have hfinal := get_results_final_step ah
    { ctx with
        result_text := f.payload
        flags := { ctx.flags with result := true, timeout := false }
        vadResets := ctx.vadResets + 1 } hc rfl hrr hpc
  simp only [hcheck, hfeed, hfinal]
  exact ⟨trivial, trivial, trivial, trivial, trivial, trivial, trivial,
    trivial, trivial, trivial⟩

/-- Concrete run of `speech_timeout_feed_handshake_then_final`: default open
session with an acknowledged start of speech at instant 0, polled at 10 s
(speech timeout 10000 ms), then fed one silence frame while the backend
answers "hello world" to the eof marker. -/
theorem speech_timeout_feed_handshake_then_final_witness :
    (whisper_check_results ⟨false, false⟩
        { whisper_open 0 with
            flags := { (whisper_open 0).flags with
                         startOfSpeech := true, returnedStartOfSpeech := true } }
        10000000).2 = SwitchStatus.statusFalse ∧
    (whisper_check_results ⟨false, false⟩
        { whisper_open 0 with
            flags := { (whisper_open 0).flags with
                         startOfSpeech := true, returnedStartOfSpeech := true } }
        10000000).1.flags.timeout = true ∧
    (whisper_feed ⟨false, false⟩
        (whisper_check_results ⟨false, false⟩
          { whisper_open 0 with
              flags := { (whisper_open 0).flags with
                           startOfSpeech := true, returnedStartOfSpeech := true } }
          10000000).1 320
        ⟨0, VadState.silence, true, RecvOutcome.pollTimeout,
         ⟨true, RecvOutcome.frame ⟨WsOpcode.text, "hello world"⟩⟩⟩).2.1 =
      SwitchStatus.success ∧
    (whisper_feed ⟨false, false⟩
        (whisper_check_results ⟨false, false⟩
          { whisper_open 0 with
              flags := { (whisper_open 0).flags with
                           startOfSpeech := true, returnedStartOfSpeech := true } }
          10000000).1 320
        ⟨0, VadState.silence, true, RecvOutcome.pollTimeout,
         ⟨true, RecvOutcome.frame ⟨WsOpcode.text, "hello world"⟩⟩⟩).2.2 =
      [SentFrame.textFrame eofPayload] ∧
    (whisper_feed ⟨false, false⟩
        (whisper_check_results ⟨false, false⟩
          { whisper_open 0 with
              flags := { (whisper_open 0).flags with
                           startOfSpeech := true, returnedStartOfSpeech := true } }
          10000000).1 320
        ⟨0, VadState.silence, true, RecvOutcome.pollTimeout,
         ⟨true, RecvOutcome.frame ⟨WsOpcode.text, "hello world"⟩⟩⟩).1.flags.result =
      true ∧
    (whisper_feed ⟨false, false⟩
        (whisper_check_results ⟨false, false⟩
          { whisper_open 0 with
              flags := { (whisper_open 0).flags with
                           startOfSpeech := true, returnedStartOfSpeech := true } }
          10000000).1 320
        ⟨0, VadState.silence, true, RecvOutcome.pollTimeout,
         ⟨true, RecvOutcome.frame ⟨WsOpcode.text, "hello world"⟩⟩⟩).1.flags.timeout =
      false ∧
    (whisper_feed ⟨false, false⟩
        (whisper_check_results ⟨false, false⟩
          { whisper_open 0 with
              flags := { (whisper_open 0).flags with
                           startOfSpeech := true, returnedStartOfSpeech := true } }
          10000000).1 320
        ⟨0, VadState.silence, true, RecvOutcome.pollTimeout,
         ⟨true, RecvOutcome.frame ⟨WsOpcode.text, "hello world"⟩⟩⟩).1.result_text =
      (⟨WsOpcode.text, "hello world"⟩ : WsFrame).payload ∧
    (whisper_get_results ⟨false, false⟩
        (whisper_feed ⟨false, false⟩
          (whisper_check_results ⟨false, false⟩
            { whisper_open 0 with
                flags := { (whisper_open 0).flags with
                             startOfSpeech := true, returnedStartOfSpeech := true } }
            10000000).1 320
          ⟨0, VadState.silence, true, RecvOutcome.pollTimeout,
           ⟨true, RecvOutcome.frame ⟨WsOpcode.text, "hello world"⟩⟩⟩).1).2.1 =
      SwitchStatus.success ∧
    (whisper_get_results ⟨false, false⟩
        (whisper_feed ⟨false, false⟩
          (whisper_check_results ⟨false, false⟩
            { whisper_open 0 with
                flags := { (whisper_open 0).flags with
                             startOfSpeech := true, returnedStartOfSpeech := true } }
            10000000).1 320
          ⟨0, VadState.silence, true, RecvOutcome.pollTimeout,
           ⟨true, RecvOutcome.frame ⟨WsOpcode.text, "hello world"⟩⟩⟩).1).2.2 =
      some ⟨{ whisper_open 0 with
                flags := { (whisper_open 0).flags with
                             startOfSpeech := true,
                             returnedStartOfSpeech := true } }.grammar,
            (⟨WsOpcode.text, "hello world"⟩ : WsFrame).payload,
            { whisper_open 0 with
                flags := { (whisper_open 0).flags with
                             startOfSpeech := true,
                             returnedStartOfSpeech := true } }.result_confidence,
            none⟩ ∧
    (whisper_get_results ⟨false, false⟩
        (whisper_feed ⟨false, false⟩
          (whisper_check_results ⟨false, false⟩
            { whisper_open 0 with
                flags := { (whisper_open 0).flags with
                             startOfSpeech := true, returnedStartOfSpeech := true } }
            10000000).1 320
          ⟨0, VadState.silence, true, RecvOutcome.pollTimeout,
           ⟨true, RecvOutcome.frame ⟨WsOpcode.text,
             "hello world"⟩⟩⟩).1).1.flags.returnedResult = true :=
  speech_timeout_feed_handshake_then_final ⟨false, false⟩
    { whisper_open 0 with
        flags := { (whisper_open 0).flags with
                     startOfSpeech := true, returnedStartOfSpeech := true } }
    10000000 320
    ⟨0, VadState.silence, true, RecvOutcome.pollTimeout,
     ⟨true, RecvOutcome.frame ⟨WsOpcode.text, "hello world"⟩⟩⟩
    ⟨WsOpcode.text, "hello world"⟩
    rfl rfl rfl rfl rfl rfl rfl (by decide) (by decide) rfl rfl (by decide)

end ModWhisper






